import Mathlib

/-!
Shallow embedding of the ntex-h2 HTTP/2 engine core (frame types, error
mapping, client connector configuration, and the dispatcher service) together
with theorems settling the specification claims about it.

Sources embedded:
  * src/frame/ping.rs   — the PING frame, its `load` and `encode`.
  * src/error.rs        — `ProtocolError`, `StreamError`, `to_goaway`, `reason`.
  * src/client/connector.rs — connector defaults and the `Config` built by
    `_connect`, plus the `connect` timeout wrapper.
  * src/dispatcher.rs   — `Dispatcher::call`, `poll_shutdown`,
    `PublishResponse::poll`, `ControlResponse::poll`.

Types whose defining files are not part of the analysed sources (frame/mod.rs,
frame/go_away.rs, frame/reset.rs, frame/settings.rs, control.rs, consts.rs,
codec.rs) are modelled from the specification's description of them, and are
marked as such in their doc comments.  Machine integers are modelled as `Nat`
(no arithmetic in the embedded code paths can overflow a u31/u32 here), byte
buffers as `List Nat`, and the fallible Rust functions return `Except`.
-/

deriving instance DecidableEq for Except

namespace NtexH2

/-- HTTP/2 error codes (`Reason`).  The frame module defining them is not under
the analysed sources; the variants are the RFC 7540 codes named by the spec and
used by src/error.rs and src/dispatcher.rs. -/
inductive Reason where
  | NO_ERROR
  | PROTOCOL_ERROR
  | INTERNAL_ERROR
  | FLOW_CONTROL_ERROR
  | SETTINGS_TIMEOUT
  | STREAM_CLOSED
  | FRAME_SIZE_ERROR
  | REFUSED_STREAM
  | CANCEL
  deriving DecidableEq, Repr

/-- Stream identifiers are unsigned 31-bit integers; modelled as `Nat`. -/
abbrev StreamId := Nat

/-- Frame kinds, as listed in spec §6; `Ping` is the one consulted by the
embedded code (ping.rs's debug assertion). -/
inductive Kind where
  | Data
  | Headers
  | Priority
  | Reset
  | Settings
  | PushPromise
  | Ping
  | GoAway
  | WindowUpdate
  | Continuation
  deriving DecidableEq, Repr

/-- Parsed 9-octet frame header, at the level the codec hands it to the typed
frame loaders: kind, flags and stream id (spec §6 wire format). -/
structure Head where
  kind : Kind
  flag : Nat
  stream_id : StreamId
  deriving DecidableEq, Repr

/-- Mirrors `Head::new(kind, flag, stream_id)`. -/
def Head.new (kind : Kind) (flag : Nat) (stream_id : StreamId) : Head :=
  ⟨kind, flag, stream_id⟩

/-- Frame parsing errors (`frame::Error`).  The defining module is not under
the analysed sources; the two variants are the ones produced by
src/frame/ping.rs. -/
inductive FrameError where
  | InvalidStreamId
  | BadFrameSize
  deriving DecidableEq, Repr

/-- The ACK flag bit of a PING frame (src/frame/ping.rs line 5). -/
def ACK_FLAG : Nat := 1

/-- The PING frame: an ack flag and an 8-octet opaque payload
(src/frame/ping.rs).  The Rust payload type `[u8; 8]` is modelled as a byte
list; `Ping.load` only ever constructs payloads of length 8. -/
structure Ping where
  ack : Bool
  payload : List Nat
  deriving DecidableEq, Repr

/-- The SHUTDOWN sentinel payload (src/frame/ping.rs line 17). -/
def SHUTDOWN_PAYLOAD : List Nat := [0x0b, 0x7b, 0xa2, 0xf0, 0x8b, 0x9b, 0xfe, 0x54]

/-- The USER sentinel payload (src/frame/ping.rs line 18). -/
def USER_PAYLOAD : List Nat := [0x3b, 0x7c, 0xdb, 0x7a, 0x0b, 0x87, 0x16, 0xb4]

/-- Mirrors `Ping::new`: a fresh (non-ACK) ping carrying `payload`. -/
def Ping.new (payload : List Nat) : Ping :=
  { ack := false, payload := payload }

/-- Mirrors `Ping::pong`: the ACK reply carrying `payload`. -/
def Ping.pong (payload : List Nat) : Ping :=
  { ack := true, payload := payload }

/-- Mirrors `Ping::is_ack`. -/
def Ping.is_ack (p : Ping) : Bool :=
  p.ack

/-- Mirrors `Ping::into_payload`. -/
def Ping.into_payload (p : Ping) : List Nat :=
  p.payload

/-- Mirrors `Ping::load(head, bytes)` (src/frame/ping.rs lines 49–77): a PING
on a nonzero stream id is `InvalidStreamId`; a payload of length other than 8
is `BadFrameSize`; otherwise the ack flag is bit 0 of the header flags and the
payload is the 8 bytes. -/
def Ping.load (head : Head) (bytes : List Nat) : Except FrameError Ping :=
  if ¬ head.stream_id = 0 then
    .error .InvalidStreamId
  else if ¬ bytes.length = 8 then
    .error .BadFrameSize
  else
    .ok { ack := (head.flag &&& ACK_FLAG) ≠ 0, payload := bytes }

/-- Mirrors `Ping::encode` (src/frame/ping.rs lines 79–88) at the head/payload
level: the frame head is `Head::new(Kind::Ping, flags, StreamId::zero())` with
the ACK bit set iff `ack`, followed by the 8 payload octets.  (The byte-level
serialization of `Head` lives in frame/mod.rs, outside the analysed sources;
the codec re-parses those bytes back into exactly this head and payload.) -/
def Ping.encode (p : Ping) : Head × List Nat :=
  let flags := if p.ack then ACK_FLAG else 0
  (Head.new Kind.Ping flags 0, p.payload)

/-- Modelled from the spec (frame/go_away.rs is not under the analysed
sources): a GOAWAY frame is "a graceful termination marker carrying the last
stream id the sender will honor and a reason code", plus the human-readable
debug payload that `to_goaway` attaches. -/
structure GoAway where
  reason : Reason
  last_stream_id : StreamId
  debug_data : String
  deriving DecidableEq, Repr

/-- Modelled from the spec: `GoAway::new(reason)` carries the given reason,
last stream id 0 and no debug data. -/
def GoAway.new (reason : Reason) : GoAway :=
  { reason := reason, last_stream_id := 0, debug_data := "" }

/-- Modelled from the spec: builder setter for the debug payload. -/
def GoAway.set_data (g : GoAway) (data : String) : GoAway :=
  { g with debug_data := data }

/-- Modelled from the spec: builder setter for the last stream id. -/
def GoAway.set_last_stream_id (g : GoAway) (id : StreamId) : GoAway :=
  { g with last_stream_id := id }

/-- Modelled from the spec (frame/reset.rs is not under the analysed sources):
RST_STREAM is an "abrupt termination of a single stream carrying a reason
code"; `stream_id()` and `reason()` are its accessors used by the dispatcher. -/
structure Reset where
  stream_id : StreamId
  reason : Reason
  deriving DecidableEq, Repr

/-- Modelled from the spec (frame/settings.rs is not under the analysed
sources): the SETTINGS parameters the connector reads and writes, each
optional as in the builder API of src/client/connector.rs. -/
structure Settings where
  initial_window_size : Option Nat
  max_frame_size : Option Nat
  max_header_list_size : Option Nat
  max_concurrent_streams : Option Nat
  enable_connect_protocol : Option Nat
  deriving DecidableEq, Repr

/-- Modelled from the spec: `Settings::default()` leaves every parameter unset
(spec §6 lists the protocol defaults applied when absent). -/
def Settings.default : Settings :=
  { initial_window_size := none
    max_frame_size := none
    max_header_list_size := none
    max_concurrent_streams := none
    enable_connect_protocol := none }

/-- Modelled from the spec: `Settings::is_extended_connect_protocol_enabled`
reports whether the 0-or-1 valued `SETTINGS_ENABLE_CONNECT_PROTOCOL` parameter
is set to 1. -/
def Settings.is_extended_connect_protocol_enabled (s : Settings) : Option Bool :=
  s.enable_connect_protocol.map (fun v => v = 1)

/-- Modelled from the spec (frame/headers.rs is not under the analysed
sources): a typed HEADERS frame; the dispatcher forwards it opaquely to
`Connection::recv_headers`, so its contents are left abstract. -/
abbrev HeadersFrame := Nat

/-- Modelled from the spec (frame/data.rs is not under the analysed sources):
a typed DATA frame, opaque to the dispatcher, which forwards it to
`Connection::recv_data`. -/
abbrev DataFrame := Nat

/-- Modelled from the spec (frame/window_update.rs is not under the analysed
sources): a typed WINDOW_UPDATE frame, opaque to the dispatcher. -/
abbrev WindowUpdateFrame := Nat

/-- Modelled from the spec (frame/priority.rs is not under the analysed
sources): a typed PRIORITY frame; spec §4.5 — "accepted and ignored". -/
abbrev PriorityFrame := Nat

/-- The typed frames the dispatcher consumes and emits (spec §6; the `Frame`
enum of frame/mod.rs, with exactly the variants matched by
`Dispatcher::call`). -/
inductive Frame where
  | Headers (hdrs : HeadersFrame)
  | Data (data : DataFrame)
  | Settings (settings : Settings)
  | WindowUpdate (update : WindowUpdateFrame)
  | Reset (reset : Reset)
  | Ping (ping : Ping)
  | GoAway (frm : GoAway)
  | Priority (prio : PriorityFrame)
  deriving DecidableEq, Repr

/-- Modelled from the spec (codec.rs is not under the analysed sources): the
encoder error that `ProtocolError::Encoder` wraps; its contents are opaque to
error mapping. -/
abbrev EncoderError := String

/-- Connection-fatal protocol errors (src/error.rs lines 6–37), one variant
per Rust variant; `&'static str` payloads become `String`. -/
inductive ProtocolError where
  | UnknownStream (frame : Frame)
  | Reason (reason : Reason)
  | Encoder (err : EncoderError)
  | StreamIdle (s : String)
  | StreamClosed (id : StreamId)
  | InvalidStreamId
  | UnexpectedSettingsAck
  | MissingPseudo (s : String)
  | UnexpectedPseudo (s : String)
  | ZeroWindowUpdateValue
  | KeepaliveTimeout
  | Frame (err : FrameError)
  deriving DecidableEq, Repr

/-- Mirrors `ProtocolError::to_goaway` (src/error.rs lines 46–79): each
connection error maps to a GOAWAY with its reason code and debug text.
Rust's `format!("{:?}", x)` debug payloads are rendered with `reprStr`. -/
def ProtocolError.to_goaway : ProtocolError → GoAway
  | .Reason reason => GoAway.new reason
  | .Encoder _ =>
      (GoAway.new Reason.PROTOCOL_ERROR).set_data "error during frame encoding"
  | .MissingPseudo s =>
      (GoAway.new Reason.PROTOCOL_ERROR).set_data ("Missing pseudo header " ++ reprStr s)
  | .UnexpectedPseudo s =>
      (GoAway.new Reason.PROTOCOL_ERROR).set_data ("Unexpected pseudo header " ++ reprStr s)
  | .UnknownStream _ =>
      (GoAway.new Reason.PROTOCOL_ERROR).set_data "unknown stream"
  | .InvalidStreamId =>
      (GoAway.new Reason.PROTOCOL_ERROR).set_data
        "An invalid stream identifier was provided"
  | .StreamIdle s =>
      (GoAway.new Reason.PROTOCOL_ERROR).set_data ("Stream idle: " ++ s)
  | .StreamClosed s =>
      (GoAway.new Reason.STREAM_CLOSED).set_data (reprStr s ++ " is closed")
  | .UnexpectedSettingsAck =>
      (GoAway.new Reason.PROTOCOL_ERROR).set_data "received unexpected settings ack"
  | .ZeroWindowUpdateValue =>
      (GoAway.new Reason.PROTOCOL_ERROR).set_data
        "zero value for window update frame is not allowed"
  | .KeepaliveTimeout =>
      (GoAway.new Reason.NO_ERROR).set_data "keep-alive timeout"
  | .Frame err =>
      (GoAway.new Reason.PROTOCOL_ERROR).set_data ("protocol error: " ++ reprStr err)

/-- Stream-fatal errors (src/error.rs lines 99–117). -/
inductive StreamError where
  | Idle (s : String)
  | Closed
  | WindowOverflowed
  | WindowZeroUpdateValue
  | TrailersWithoutEos
  | InvalidContentLength
  | WrongPayloadLength
  | NonEmptyPayload
  deriving DecidableEq, Repr

/-- Mirrors `StreamError::reason` (src/error.rs lines 119–133). -/
def StreamError.reason : StreamError → Reason
  | .Idle _ => Reason.PROTOCOL_ERROR
  | .Closed => Reason.STREAM_CLOSED
  | .WindowOverflowed => Reason.FLOW_CONTROL_ERROR
  | .WindowZeroUpdateValue => Reason.PROTOCOL_ERROR
  | .TrailersWithoutEos => Reason.PROTOCOL_ERROR
  | .InvalidContentLength => Reason.PROTOCOL_ERROR
  | .WrongPayloadLength => Reason.PROTOCOL_ERROR
  | .NonEmptyPayload => Reason.PROTOCOL_ERROR

/-- Stream handles (`StreamRef`): the stream registry lives in connection.rs
outside the analysed sources; the dispatcher only clones and forwards handles,
so a handle is modelled by its identity. -/
abbrev StreamRef := Nat

/-- Mirrors `StreamErrorInner` (src/error.rs lines 82–97): a stream error
paired with the stream it concerns. -/
structure StreamErrorInner where
  kind : StreamError
  stream : StreamRef
  deriving DecidableEq, Repr

/-- Mirrors `StreamErrorInner::new`. -/
def StreamErrorInner.new (stream : StreamRef) (kind : StreamError) : StreamErrorInner :=
  { kind := kind, stream := stream }

/-- Mirrors `StreamErrorInner::into_inner`. -/
def StreamErrorInner.into_inner (e : StreamErrorInner) : StreamRef × StreamError :=
  (e.stream, e.kind)

/-- Mirrors the `From<frame::FrameError> for ProtocolError` impl derived by
`#[from]` on the `Frame` variant (src/error.rs line 36): a frame parse error
surfaces as `ProtocolError::Frame(err)`.  This is the conversion
`Dispatcher::call` applies to a decoder error (dispatcher.rs line 227), so it
is the path a failed `Ping::load` takes to the control service. -/
def ProtocolError.from_frame (err : FrameError) : ProtocolError :=
  ProtocolError.Frame err

/-- Byte buffers (`ntex_bytes::Bytes`), modelled as byte lists. -/
abbrev Bytes := List Nat

/-- Header maps (`ntex_http::HeaderMap`), modelled as name/value lists; the
embedded code never inspects them. -/
abbrev HeaderMap := List (String × String)

/-- Pseudo-header sets (`frame::PseudoHeaders`, defined outside the analysed
sources), modelled as name/value lists. -/
abbrev PseudoHeaders := List (String × String)

/-- Application-facing stream handles (`connection::Stream`, defined outside
the analysed sources); modelled by identity like `StreamRef`. -/
abbrev Stream := Nat

/-- Terminal stream events (src/message.rs lines 28–33). -/
inductive StreamEof where
  | Data (data : Bytes)
  | Trailers (headers : HeaderMap)
  | Reset (reason : Reason)
  deriving DecidableEq, Repr

/-- Message payload kinds (src/message.rs lines 16–26). -/
inductive MessageKind where
  | Headers (pseudo : PseudoHeaders) (headers : HeaderMap) (eof : Bool)
  | Data (data : Bytes)
  | Eof (eof : StreamEof)
  | Empty
  deriving DecidableEq, Repr

/-- Application-visible message events (src/message.rs lines 10–14). -/
structure Message where
  stream : Stream
  kind : MessageKind
  deriving DecidableEq, Repr

/-- Mirrors `Message::new` (src/message.rs lines 36–50). -/
def Message.new (pseudo : PseudoHeaders) (headers : HeaderMap) (eof : Bool)
    (stream : Stream) : Message :=
  { stream := stream, kind := MessageKind.Headers pseudo headers eof }

/-- Mirrors `Message::data` (src/message.rs lines 52–64): with `eof` the chunk
becomes the terminal `Eof(Data _)` event, otherwise an intermediate `Data`. -/
def Message.data (data : Bytes) (eof : Bool) (stream : Stream) : Message :=
  if eof then
    { stream := stream, kind := MessageKind.Eof (StreamEof.Data data) }
  else
    { stream := stream, kind := MessageKind.Data data }

/-- Mirrors `MessageKind::take` (src/message.rs lines 76–78): returns the held
kind and what replaces it in place (`Empty`). -/
def MessageKind.take (k : MessageKind) : MessageKind × MessageKind :=
  (k, MessageKind.Empty)

/-- Modelled from the spec (control.rs is not under the analysed sources): the
control messages, one constructor per constructor function invoked by
src/dispatcher.rs (`proto_error`, `stream_error`, `go_away`, `peer_gone`,
`app_error`, `terminated`), with the payloads passed there. -/
inductive ControlMessage (E : Type) where
  | proto_error (err : ProtocolError)
  | stream_error (err : StreamErrorInner)
  | go_away (frm : GoAway)
  | peer_gone (err : Option String)
  | app_error (err : E) (stream : StreamRef)
  | terminated (is_error : Bool)
  deriving DecidableEq, Repr

/-- The control service's answer, from spec §6: "ControlResult{frame:
Option<Frame>, disconnect: bool}" (control.rs is not under the analysed
sources). -/
structure ControlResult where
  frame : Option Frame
  disconnect : Bool
  deriving DecidableEq, Repr

/-- The items the transport delivers to the dispatcher
(`ntex_io::DispatchItem`, spec §6).  The decoder error carries the frame parse
error (codec.rs is outside the analysed sources); `Dispatcher::call` converts
it with `ProtocolError::from`, the `#[from]` impls of src/error.rs
(`ProtocolError.from_frame` for frame errors, `Encoder` for encoder
errors). -/
inductive DispatchItem where
  | Item (frame : Frame)
  | EncoderError (err : EncoderError)
  | DecoderError (err : FrameError)
  | KeepAliveTimeout
  | Disconnect (err : Option String)
  | WBackPressureEnabled
  | WBackPressureDisabled
  deriving DecidableEq, Repr

/-- The future `Dispatcher::call` returns (dispatcher.rs lines 37–38), by
shape: `Either::Left(PublishResponse)` becomes `Publish`,
`Either::Right(Either::Left(Ready::Ok(None)))` becomes `ReadyNone`, and
`Either::Right(Either::Right(ControlResponse::new(msg, _)))` becomes
`Control msg`. -/
inductive ServiceFut (E : Type) where
  | Publish (msg : Message) (stream : StreamRef)
  | ReadyNone
  | Control (msg : ControlMessage E)
  deriving DecidableEq, Repr

/-- The side effects `Dispatcher::call` performs on the connection while
classifying an item: `Connection::proto_error` recordings,
`set_failed_stream` markings, and `Connection::recv_go_away` notifications
(the connection's internals live in connection.rs outside the analysed
sources; the dispatcher's calls into it are recorded here). -/
structure CallEffects where
  proto_errors : List ProtocolError
  failed_streams : List StreamErrorInner
  go_away_recv : List (Reason × String)
  deriving DecidableEq, Repr

/-- No side effect on the connection. -/
def CallEffects.empty : CallEffects :=
  { proto_errors := [], failed_streams := [], go_away_recv := [] }

/-- The connection's answers to the one frame being dispatched: the results of
the `Connection::recv_*` calls that `Dispatcher::call` forwards to
(connection.rs is outside the analysed sources, so its outcomes are inputs to
the embedding).  `Either<ProtocolError, StreamError>` becomes a `Sum` whose
right component carries the offending stream, as the dispatcher reads it via
`err.stream()`. -/
structure ConnResults where
  recv_headers : Except ProtocolError (Option (StreamRef × Message))
  recv_data : Except ProtocolError (Option (StreamRef × Message))
  recv_settings : Except ProtocolError Unit
  recv_window_update : Except (Sum ProtocolError StreamErrorInner) Unit
  recv_rst_stream : Except (Sum ProtocolError StreamErrorInner) Unit

/-- Mirrors `Dispatcher::handle_message` (dispatcher.rs lines 60–79). -/
def Dispatcher.handle_message {E : Type}
    (result : Except ProtocolError (Option (StreamRef × Message))) :
    ServiceFut E × CallEffects :=
  match result with
  | .ok (some (stream, msg)) => (ServiceFut.Publish msg stream, CallEffects.empty)
  | .ok none => (ServiceFut.ReadyNone, CallEffects.empty)
  | .error err =>
      (ServiceFut.Control (ControlMessage.proto_error err),
        { CallEffects.empty with proto_errors := [err] })

/-- Mirrors `Dispatcher::handle_proto_error` (dispatcher.rs lines 81–95). -/
def Dispatcher.handle_proto_error {E : Type}
    (result : Except ProtocolError Unit) : ServiceFut E × CallEffects :=
  match result with
  | .ok _ => (ServiceFut.ReadyNone, CallEffects.empty)
  | .error err =>
      (ServiceFut.Control (ControlMessage.proto_error err),
        { CallEffects.empty with proto_errors := [err] })

/-- Mirrors `Dispatcher::handle_mixed_error` (dispatcher.rs lines 97–118). -/
def Dispatcher.handle_mixed_error {E : Type}
    (result : Except (Sum ProtocolError StreamErrorInner) Unit) :
    ServiceFut E × CallEffects :=
  match result with
  | .ok _ => (ServiceFut.ReadyNone, CallEffects.empty)
  | .error (Sum.inl err) =>
      (ServiceFut.Control (ControlMessage.proto_error err),
        { CallEffects.empty with proto_errors := [err] })
  | .error (Sum.inr err) =>
      (ServiceFut.Control (ControlMessage.stream_error err),
        { CallEffects.empty with failed_streams := [err] })

/-- Mirrors `Dispatcher::call` (dispatcher.rs lines 187–250): classification
of one transport item into the response future, with the connection side
effects performed along the way. -/
def Dispatcher.call {E : Type} (conn : ConnResults) (request : DispatchItem) :
    ServiceFut E × CallEffects :=
  match request with
  | .Item frame =>
      match frame with
      | .Headers _ => Dispatcher.handle_message conn.recv_headers
      | .Data _ => Dispatcher.handle_message conn.recv_data
      | .Settings _ => Dispatcher.handle_proto_error conn.recv_settings
      | .WindowUpdate _ => Dispatcher.handle_mixed_error conn.recv_window_update
      | .Reset _ => Dispatcher.handle_mixed_error conn.recv_rst_stream
      | .Ping _ =>
          -- dispatcher.rs lines 201–204: the PING is logged and ignored
          (ServiceFut.ReadyNone, CallEffects.empty)
      | .GoAway frm =>
          (ServiceFut.Control (ControlMessage.go_away frm),
            { CallEffects.empty with go_away_recv := [(frm.reason, frm.debug_data)] })
      | .Priority _ =>
          -- dispatcher.rs lines 213–216: PRIORITY is not supported, ignored
          (ServiceFut.ReadyNone, CallEffects.empty)
  | .EncoderError err =>
      let err := ProtocolError.Encoder err
      (ServiceFut.Control (ControlMessage.proto_error err),
        { CallEffects.empty with proto_errors := [err] })
  | .DecoderError err =>
      let err := ProtocolError.from_frame err
      (ServiceFut.Control (ControlMessage.proto_error err),
        { CallEffects.empty with proto_errors := [err] })
  | .KeepAliveTimeout =>
      (ServiceFut.Control (ControlMessage.proto_error ProtocolError.KeepaliveTimeout),
        { CallEffects.empty with proto_errors := [ProtocolError.KeepaliveTimeout] })
  | .Disconnect err =>
      (ServiceFut.Control (ControlMessage.peer_gone err), CallEffects.empty)
  | .WBackPressureEnabled => (ServiceFut.ReadyNone, CallEffects.empty)
  | .WBackPressureDisabled => (ServiceFut.ReadyNone, CallEffects.empty)

/-- Poll results of a Rust future. -/
inductive Poll (α : Type) where
  | Ready (val : α)
  | Pending
  deriving DecidableEq, Repr

/-- One poll of `PublishResponse` while in its `Publish` state (dispatcher.rs
lines 296–315): completion of the publish future yields `Ok(None)`, its
failure switches the state to a `ControlResponse` carrying
`ControlMessage::app_error(e, stream)` (which is then polled), and pending
passes through. -/
inductive PubPoll (E : Type) where
  | Pending
  | Done (result : Except Unit (Option Frame))
  | Control (msg : ControlMessage E)
  deriving DecidableEq, Repr

/-- Mirrors the `Publish` arm of `PublishResponse::poll` (dispatcher.rs lines
300–312), given the publish future's poll result for the stream message. -/
def PublishResponse.poll_publish {E : Type} (stream : StreamRef)
    (res : Poll (Except E Unit)) : PubPoll E :=
  match res with
  | .Ready (.ok _) => PubPoll.Done (.ok none)
  | .Ready (.error e) => PubPoll.Control (ControlMessage.app_error e stream)
  | .Pending => PubPoll.Pending

/-- What one resolution of `ControlResponse::poll` does (dispatcher.rs lines
351–378): the response returned to the transport, the stream reset requested
on the connection, and whether the transport was closed. -/
structure CtlPollOut where
  response : Except Unit (Option Frame)
  rst_stream : Option (StreamId × Reason)
  io_closed : Bool
  deriving DecidableEq, Repr

/-- Mirrors `ControlResponse::poll` (dispatcher.rs lines 351–378), given the
control future's poll result (`ready!` forwards a pending poll). -/
def ControlResponse.poll {CtlErr : Type} (last_stream_id : StreamId)
    (fut : Poll (Except CtlErr ControlResult)) : Poll CtlPollOut :=
  match fut with
  | .Pending => Poll.Pending
  | .Ready (.ok res) =>
      let rst :=
        match res.frame with
        | some (Frame.Reset rst) =>
            if ¬ rst.stream_id = 0 then some (rst.stream_id, rst.reason) else none
        | _ => none
      Poll.Ready
        { response := .ok res.frame, rst_stream := rst, io_closed := res.disconnect }
  | .Ready (.error _) =>
      -- we cannot handle control service errors: reply with a final GOAWAY
      Poll.Ready
        { response := .ok (some (Frame.GoAway
            ((GoAway.new Reason.INTERNAL_ERROR).set_last_stream_id last_stream_id)))
          rst_stream := none
          io_closed := false }

/-- The dispatcher's shutdown cell (dispatcher.rs lines 25–29).  `InProcess`
abstracts the boxed control future it holds. -/
inductive ShutdownSt where
  | NotSet
  | Done
  | InProcess
  deriving DecidableEq, Repr

/-- The environment of one `poll_shutdown` invocation: whether the in-flight
`Terminated` control future resolves on this poll, and whether the publish and
control services' own `poll_shutdown` are ready. -/
structure ShutdownIn where
  fut_ready : Bool
  pub_ready : Bool
  ctl_ready : Bool
  deriving DecidableEq, Repr

/-- What one `poll_shutdown` invocation did: whether it called the control
service with `ControlMessage::terminated`, polled / completed the in-flight
control future, went on to poll the publish and control services' shutdown,
and returned `Poll::Ready`. -/
structure ShutdownObs where
  called_terminated : Bool
  fut_polled : Bool
  fut_completed : Bool
  services_polled : Bool
  result_ready : Bool
  deriving DecidableEq, Repr

/-- The part of `poll_shutdown` that polls an in-flight `Terminated` future
(dispatcher.rs lines 160–184): on readiness the cell flips to `Done` and the
publish/control shutdowns are polled; otherwise everything stays pending. -/
def Dispatcher.poll_shutdown_in_process (called : Bool) (i : ShutdownIn) :
    ShutdownSt × ShutdownObs :=
  if i.fut_ready then
    (ShutdownSt.Done,
      { called_terminated := called, fut_polled := true, fut_completed := true,
        services_polled := true, result_ready := i.pub_ready && i.ctl_ready })
  else
    (ShutdownSt.InProcess,
      { called_terminated := called, fut_polled := true, fut_completed := false,
        services_polled := false, result_ready := false })

/-- Mirrors `Dispatcher::poll_shutdown` (dispatcher.rs lines 149–185): from
`NotSet` it installs `control.call(ControlMessage::terminated(is_error))` as
the in-flight future and polls it; from `InProcess` it polls the in-flight
future; from `Done` it goes straight to polling the publish and control
shutdowns.  (The source's `panic!` arm is unreachable: the guard installs the
future before the match ever sees `NotSet`.) -/
def Dispatcher.poll_shutdown (s : ShutdownSt) (i : ShutdownIn) :
    ShutdownSt × ShutdownObs :=
  match s with
  | .NotSet => Dispatcher.poll_shutdown_in_process true i
  | .InProcess => Dispatcher.poll_shutdown_in_process false i
  | .Done =>
      (ShutdownSt.Done,
        { called_terminated := false, fut_polled := false, fut_completed := false,
          services_polled := true, result_ready := i.pub_ready && i.ctl_ready })

/-- Iterated `poll_shutdown`: the final cell state and the per-invocation
observations, in order. -/
def Dispatcher.run_shutdown : ShutdownSt → List ShutdownIn → ShutdownSt × List ShutdownObs
  | s, [] => (s, [])
  | s, i :: rest =>
      let step := Dispatcher.poll_shutdown s i
      let tail := Dispatcher.run_shutdown step.1 rest
      (tail.1, step.2 :: tail.2)

/-- Modelled from the spec (consts.rs is not under the analysed sources):
`DEFAULT_RESET_STREAM_SECS`, per spec §6 "reset_stream_duration=10s". -/
def DEFAULT_RESET_STREAM_SECS : Nat := 10

/-- Modelled from the spec (consts.rs is not under the analysed sources):
`DEFAULT_RESET_STREAM_MAX`, per spec §6 "reset_stream_max=10". -/
def DEFAULT_RESET_STREAM_MAX : Nat := 10

/-- Modelled from the spec (frame/mod.rs is not under the analysed sources):
`DEFAULT_INITIAL_WINDOW_SIZE`, per spec §3 "conn_send_flow, conn_recv_flow
(connection-level windows; defaults 65535)". -/
def DEFAULT_INITIAL_WINDOW_SIZE : Nat := 65535

/-- Modelled from the spec (consts.rs is not under the analysed sources): the
client preface, "the exact 24-octet sequence PRI * HTTP/2.0\r\n\r\nSM\r\n\r\n"
(spec §6). -/
def PREFACE : String := "PRI * HTTP/2.0\r\n\r\nSM\r\n\r\n"

/-- The connector's inner configuration (src/client/connector.rs lines 19–40);
timeouts are in seconds (`ntex_util::time::Seconds`), modelled as `Nat`. -/
structure ConnectorInner where
  settings : Settings
  reset_stream_duration : Nat
  reset_stream_max : Nat
  initial_target_connection_window_size : Option Nat
  handshake_timeout : Nat
  disconnect_timeout : Nat
  keepalive_timeout : Nat
  deriving DecidableEq, Repr

/-- Mirrors `Connector::new` (src/client/connector.rs lines 48–61): the
default client connector configuration. -/
def Connector.new : ConnectorInner :=
  { settings := Settings.default
    reset_stream_duration := DEFAULT_RESET_STREAM_SECS
    reset_stream_max := DEFAULT_RESET_STREAM_MAX
    initial_target_connection_window_size := none
    handshake_timeout := 5
    disconnect_timeout := 3
    keepalive_timeout := 120 }

/-- The connection configuration (`connection::Config`; connection.rs is not
under the analysed sources, the fields are the ones `Connector::_connect`
constructs, matching spec §4.1). -/
structure Config where
  local_init_window_sz : Nat
  initial_max_send_streams : Nat
  local_next_stream_id : StreamId
  extended_connect_protocol_enabled : Bool
  local_reset_duration : Nat
  local_reset_max : Nat
  remote_init_window_sz : Nat
  remote_max_initiated : Option Nat
  deriving DecidableEq, Repr

/-- Mirrors the `Config` literal built by `Connector::_connect`
(src/client/connector.rs lines 336–354). -/
def Connector.connect_config (inner : ConnectorInner) : Config :=
  { local_init_window_sz :=
      inner.settings.initial_window_size.getD DEFAULT_INITIAL_WINDOW_SIZE
    initial_max_send_streams := 0
    local_next_stream_id := 2
    extended_connect_protocol_enabled :=
      (inner.settings.is_extended_connect_protocol_enabled).getD false
    local_reset_duration := inner.reset_stream_duration
    local_reset_max := inner.reset_stream_max
    remote_init_window_sz := DEFAULT_INITIAL_WINDOW_SIZE
    remote_max_initiated := inner.settings.max_concurrent_streams }

/-- What `Connector::_connect` writes to the transport before the connection
is handed over (src/client/connector.rs lines 330–334): the client preface
followed by the initial SETTINGS frame. -/
inductive WriteItem where
  | Preface
  | Frame (frame : Frame)
  deriving DecidableEq, Repr

/-- The transport writes performed by `Connector::_connect`
(src/client/connector.rs lines 330–334). -/
def Connector.connect_writes (inner : ConnectorInner) : List WriteItem :=
  [WriteItem.Preface, WriteItem.Frame (Frame.Settings inner.settings)]

/-- Modelled from the spec (client/mod.rs is not under the analysed sources):
the client errors `Connector::connect` produces; `HandshakeTimeout` is the
variant named by the spec, everything else from the underlying handshake is
collapsed into `Other`. -/
inductive ClientError where
  | HandshakeTimeout
  | Other (msg : String)
  deriving DecidableEq, Repr

/-- Mirrors `Connector::connect` (src/client/connector.rs lines 299–310):
`timeout_checked(handshake_timeout, _connect)` — if the handshake completed
within the timeout its result passes through, otherwise the result is
`Err(ClientError::HandshakeTimeout)`.  `completed` models whether `_connect`
resolved within `handshake_timeout`. -/
def Connector.connect_result (completed : Bool)
    (res : Except ClientError Config) : Except ClientError Config :=
  if completed then res else .error ClientError.HandshakeTimeout

/-- A connection whose `recv_*` calls all succeed without yielding a message;
used to instantiate the dispatcher at concrete inputs. -/
def ConnResults.quiet : ConnResults :=
  { recv_headers := .ok none
    recv_data := .ok none
    recv_settings := .ok ()
    recv_window_update := .ok ()
    recv_rst_stream := .ok () }

/-- The all-false observation, used as the out-of-range default when indexing
a shutdown trace. -/
def ShutdownObs.empty : ShutdownObs :=
  { called_terminated := false, fut_polled := false, fut_completed := false,
    services_polled := false, result_ready := false }

/-- C1: contrary to the claim, the `Config` built by `Connector::_connect` has
`local_next_stream_id = 2` — an even, server-style first stream id — for every
connector configuration, the defaults included; the claimed value 1 (odd,
client-style) is what RFC 7540 and the spec require of a client. -/
theorem C1_client_config_next_stream_id_is_two (inner : ConnectorInner) :
    (Connector.connect_config inner).local_next_stream_id = 2 ∧
    (Connector.connect_config inner).local_next_stream_id % 2 = 0 := by
  refine ⟨rfl, ?_⟩
  simp [Connector.connect_config]

/-- C2: contrary to the claim, `Dispatcher::call` produces no frame for any
inbound PING — ACK or not — and performs no connection side effect: the frame
is logged and dropped, so no PING ACK echoing the payload is ever sent. -/
theorem C2_dispatcher_ignores_every_ping (conn : ConnResults) (p : Ping) :
    @Dispatcher.call Unit conn (DispatchItem.Item (Frame.Ping p)) =
      (ServiceFut.ReadyNone, CallEffects.empty) :=
  rfl

/-- C3 counterexample: a 3-octet PING on stream 0 fails `Ping::load` with
`BadFrameSize`, but the connection error it becomes —
`ProtocolError::Frame(BadFrameSize)`, via the `#[from]` conversion the
dispatcher applies to decoder errors — maps under `to_goaway` to a GOAWAY
carrying reason PROTOCOL_ERROR, not the claimed FRAME_SIZE_ERROR. -/
theorem C3_ping_bad_length_counterexample :
    Ping.load (Head.new Kind.Ping 0 0) [1, 2, 3] = Except.error FrameError.BadFrameSize ∧
    (ProtocolError.from_frame FrameError.BadFrameSize).to_goaway.reason =
      Reason.PROTOCOL_ERROR ∧
    ¬ (ProtocolError.from_frame FrameError.BadFrameSize).to_goaway.reason =
        Reason.FRAME_SIZE_ERROR := by
  exact ⟨by decide, rfl, by decide⟩

/-- C3 (amended): a raw PING frame whose payload length is not 8 octets fails
to load; when the frame is otherwise well-formed (stream id 0) the error is
`BadFrameSize`, and the connection error it surfaces as —
`ProtocolError::Frame(BadFrameSize)` — maps to a GOAWAY carrying reason
PROTOCOL_ERROR with debug data naming the frame error. -/
theorem C3_ping_bad_length_maps_to_protocol_error (head : Head) (bytes : List Nat)
    (h : ¬ bytes.length = 8) :
    (∃ e, Ping.load head bytes = Except.error e) ∧
    (head.stream_id = 0 →
      Ping.load head bytes = Except.error FrameError.BadFrameSize ∧
      (ProtocolError.from_frame FrameError.BadFrameSize).to_goaway =
        (GoAway.new Reason.PROTOCOL_ERROR).set_data
          ("protocol error: " ++ reprStr FrameError.BadFrameSize)) := by
  by_cases h0 : head.stream_id = 0
  · exact ⟨⟨FrameError.BadFrameSize, by simp [Ping.load, h0, h]⟩,
      fun _ => ⟨by simp [Ping.load, h0, h], rfl⟩⟩
  · exact ⟨⟨FrameError.InvalidStreamId, by simp [Ping.load, h0]⟩,
      fun hc => absurd hc h0⟩

/-- C3 amended witness: the 3-octet PING on stream 0 fails with
`BadFrameSize` and its connection error maps to GOAWAY(PROTOCOL_ERROR). -/
theorem C3_ping_bad_length_amended_witness :
    (∃ e, Ping.load (Head.new Kind.Ping 0 0) [1, 2, 3] = Except.error e) ∧
    Ping.load (Head.new Kind.Ping 0 0) [1, 2, 3] = Except.error FrameError.BadFrameSize ∧
    (ProtocolError.from_frame FrameError.BadFrameSize).to_goaway.reason =
      Reason.PROTOCOL_ERROR := by
  obtain ⟨h1, h2⟩ :=
    C3_ping_bad_length_maps_to_protocol_error (Head.new Kind.Ping 0 0) [1, 2, 3] (by decide)
  exact ⟨h1, (h2 rfl).1, by rw [(h2 rfl).2]; rfl⟩

/-- C4 counterexample: when the control future resolves with an error,
`ControlResponse::poll` yields the GOAWAY(INTERNAL_ERROR) response but leaves
the transport open (`io_closed = false`), refuting the claim's "and closes the
transport". -/
theorem C4_control_error_leaves_transport_open :
    @ControlResponse.poll Unit 7 (Poll.Ready (Except.error ())) =
      Poll.Ready
        { response := Except.ok (some (Frame.GoAway
            { reason := Reason.INTERNAL_ERROR, last_stream_id := 7, debug_data := "" }))
          rst_stream := none
          io_closed := false } :=
  rfl

/-- C4 (amended): if the Control service's call future resolves with an error,
the dispatcher's handling is terminal in that its response is a GOAWAY frame
with reason INTERNAL_ERROR carrying the last stream id; it requests no stream
reset and does not itself close the transport. -/
theorem C4_control_error_yields_internal_error_goaway {CtlErr : Type}
    (last : StreamId) (e : CtlErr) :
    ControlResponse.poll last (Poll.Ready (Except.error e)) =
      Poll.Ready
        { response := Except.ok (some (Frame.GoAway
            ((GoAway.new Reason.INTERNAL_ERROR).set_last_stream_id last)))
          rst_stream := none
          io_closed := false } :=
  rfl

/-- C5: when the Control service resolves successfully with a `ControlResult`,
a returned RST_STREAM frame with nonzero stream id causes a reset of that
stream on the connection (and a zero id does not), `disconnect = true` is
exactly when the transport is closed, and the returned frame is forwarded as
the dispatcher's response. -/
theorem C5_control_result_handling {CtlErr : Type} (last : StreamId) (res : ControlResult) :
    ∃ out,
      @ControlResponse.poll CtlErr last (Poll.Ready (Except.ok res)) =
        Poll.Ready out ∧
      out.response = Except.ok res.frame ∧
      out.io_closed = res.disconnect ∧
      (∀ rst, res.frame = some (Frame.Reset rst) → ¬ rst.stream_id = 0 →
        out.rst_stream = some (rst.stream_id, rst.reason)) ∧
      (∀ rst, res.frame = some (Frame.Reset rst) → rst.stream_id = 0 →
        out.rst_stream = none) := by
  refine ⟨_, rfl, rfl, rfl, ?_, ?_⟩
  · intro rst hf hnz
    simp [hf, hnz]
  · intro rst hf hz
    simp [hf, hz]

/-- C5 witness: a control result returning RST_STREAM(3, CANCEL) with
`disconnect = true` resets stream 3, closes the transport and forwards the
frame. -/
theorem C5_control_result_witness :
    ∃ out,
      @ControlResponse.poll Unit 9
          (Poll.Ready (Except.ok
            { frame := some (Frame.Reset { stream_id := 3, reason := Reason.CANCEL })
              disconnect := true })) = Poll.Ready out ∧
      out.rst_stream = some (3, Reason.CANCEL) ∧
      out.io_closed = true ∧
      out.response =
        Except.ok (some (Frame.Reset { stream_id := 3, reason := Reason.CANCEL })) := by
  obtain ⟨out, h1, h2, h3, h4, _⟩ :=
    @C5_control_result_handling Unit 9
      { frame := some (Frame.Reset { stream_id := 3, reason := Reason.CANCEL })
        disconnect := true }
  exact ⟨out, h1, h4 _ rfl (by decide), h3, h2⟩

/-- C7: a transport-delivered `KeepAliveTimeout` item makes the dispatcher
record `ProtocolError::KeepaliveTimeout` on the connection and deliver it to
the Control service, and that error maps to a GOAWAY with reason NO_ERROR. -/
theorem C7_keepalive_timeout_soft_goaway (conn : ConnResults) :
    @Dispatcher.call Unit conn DispatchItem.KeepAliveTimeout =
      (ServiceFut.Control (ControlMessage.proto_error ProtocolError.KeepaliveTimeout),
        { CallEffects.empty with proto_errors := [ProtocolError.KeepaliveTimeout] }) ∧
    ProtocolError.KeepaliveTimeout.to_goaway =
      (GoAway.new Reason.NO_ERROR).set_data "keep-alive timeout" :=
  ⟨rfl, rfl⟩

/-- C8: a Publish failure `e` for a stream message is folded into a Control
call carrying `ControlMessage::app_error(e, stream)`, and no poll of the
publish future's arm ever fails the dispatcher itself (its output is never
`Err`). -/
theorem C8_publish_error_folds_to_app_error {E : Type} (e : E) (stream : StreamRef) :
    PublishResponse.poll_publish stream (Poll.Ready (Except.error e)) =
      PubPoll.Control (ControlMessage.app_error e stream) ∧
    ∀ res : Poll (Except E Unit),
      PublishResponse.poll_publish stream res ≠ PubPoll.Done (Except.error ()) := by
  refine ⟨rfl, ?_⟩
  intro res
  cases res with
  | Pending => simp [PublishResponse.poll_publish]
  | Ready v =>
      cases v with
      | ok _ => simp [PublishResponse.poll_publish]
      | error _ => simp [PublishResponse.poll_publish]

/-- C9: the client connect operation runs `_connect` under the configured
handshake timeout, whose default is 5 seconds; on timeout it returns
`HandshakeTimeout`, and no write `_connect` makes to the transport is ever a
GOAWAY frame. -/
theorem C9_handshake_timeout_default_five_seconds :
    Connector.new.handshake_timeout = 5 ∧
    (∀ res : Except ClientError Config,
      Connector.connect_result false res = Except.error ClientError.HandshakeTimeout) ∧
    (∀ (inner : ConnectorInner) (w : WriteItem), w ∈ Connector.connect_writes inner →
      ∀ g : GoAway, w ≠ WriteItem.Frame (Frame.GoAway g)) := by
  refine ⟨rfl, fun _ => rfl, ?_⟩
  intro inner w hw g
  simp [Connector.connect_writes] at hw
  rcases hw with rfl | rfl <;> simp

/-- C9 witness: with the default configuration the timeout is 5 seconds, a
timed-out handshake yields `HandshakeTimeout`, and the preface write is not a
GOAWAY. -/
theorem C9_handshake_timeout_witness :
    Connector.new.handshake_timeout = 5 ∧
    Connector.connect_result false (Except.ok (Connector.connect_config Connector.new)) =
      Except.error ClientError.HandshakeTimeout ∧
    WriteItem.Preface ≠ WriteItem.Frame (Frame.GoAway (GoAway.new Reason.NO_ERROR)) := by
  refine ⟨C9_handshake_timeout_default_five_seconds.1,
    C9_handshake_timeout_default_five_seconds.2.1 _,
    C9_handshake_timeout_default_five_seconds.2.2 Connector.new WriteItem.Preface ?_
      (GoAway.new Reason.NO_ERROR)⟩
  simp [Connector.connect_writes]

/-- C10: PING frames round-trip — encoding any `Ping` with an 8-octet payload
produces a frame head on stream 0 with an 8-octet payload, and `Ping::load` of
that head and payload succeeds and returns the original ping. -/
theorem C10_ping_encode_load_round_trip (p : Ping) (h : p.payload.length = 8) :
    (Ping.encode p).1.stream_id = 0 ∧
    (Ping.encode p).2.length = 8 ∧
    Ping.load (Ping.encode p).1 (Ping.encode p).2 = Except.ok p := by
  obtain ⟨ack, payload⟩ := p
  refine ⟨rfl, h, ?_⟩
  cases ack <;> simp [Ping.encode, Ping.load, Head.new, ACK_FLAG, h]

/-- Once the shutdown cell is `Done`, every further `poll_shutdown` leaves it
`Done`, never calls the control service with `Terminated` again, never polls
the finished control future, and goes straight to the services' shutdown. -/
theorem run_shutdown_from_done (ins : List ShutdownIn) :
    (Dispatcher.run_shutdown ShutdownSt.Done ins).1 = ShutdownSt.Done ∧
    ∀ o ∈ (Dispatcher.run_shutdown ShutdownSt.Done ins).2,
      o.called_terminated = false ∧ o.fut_polled = false ∧
      o.fut_completed = false ∧ o.services_polled = true := by
  induction ins with
  | nil => exact ⟨rfl, by simp [Dispatcher.run_shutdown]⟩
  | cons i rest ih =>
      refine ⟨?_, ?_⟩
      · simpa [Dispatcher.run_shutdown, Dispatcher.poll_shutdown] using ih.1
      · intro o ho
        simp only [Dispatcher.run_shutdown, Dispatcher.poll_shutdown,
          List.mem_cons] at ho
        rcases ho with rfl | ho
        · exact ⟨rfl, rfl, rfl, rfl⟩
        · exact ih.2 o ho

/-- Runs from `InProcess` never call the control service with `Terminated`
again, complete the in-flight future exactly when they end `Done`, never poll
it again after completion, and poll the services' shutdown only at or after
the poll that completed it. -/
theorem run_shutdown_from_in_process (ins : List ShutdownIn) :
    (Dispatcher.run_shutdown ShutdownSt.InProcess ins).2.countP
        (fun o => o.called_terminated) = 0 ∧
    (Dispatcher.run_shutdown ShutdownSt.InProcess ins).2.countP
        (fun o => o.fut_completed) =
      (if (Dispatcher.run_shutdown ShutdownSt.InProcess ins).1 = ShutdownSt.Done
        then 1 else 0) ∧
    (∀ k j : Nat, j < k →
      ((Dispatcher.run_shutdown ShutdownSt.InProcess ins).2.getD j
        ShutdownObs.empty).fut_completed = true →
      ((Dispatcher.run_shutdown ShutdownSt.InProcess ins).2.getD k
        ShutdownObs.empty).fut_polled = false) ∧
    (∀ k : Nat,
      ((Dispatcher.run_shutdown ShutdownSt.InProcess ins).2.getD k
        ShutdownObs.empty).services_polled = true →
      ∃ j, j ≤ k ∧
        ((Dispatcher.run_shutdown ShutdownSt.InProcess ins).2.getD j
          ShutdownObs.empty).fut_completed = true) := by
  induction ins with
  | nil =>
      refine ⟨rfl, rfl, ?_, ?_⟩
      · intro k j _ hj
        simp [Dispatcher.run_shutdown, ShutdownObs.empty] at hj
      · intro k hk
        simp [Dispatcher.run_shutdown, ShutdownObs.empty] at hk
  | cons i rest ih =>
      by_cases hF : i.fut_ready
      · -- the in-flight future resolves on this poll: cell flips to Done
        have hd := run_shutdown_from_done rest
        have hstep : Dispatcher.run_shutdown ShutdownSt.InProcess (i :: rest) =
            ((Dispatcher.run_shutdown ShutdownSt.Done rest).1,
              { called_terminated := false, fut_polled := true, fut_completed := true,
                services_polled := true, result_ready := i.pub_ready && i.ctl_ready } ::
                (Dispatcher.run_shutdown ShutdownSt.Done rest).2) := by
          simp [Dispatcher.run_shutdown, Dispatcher.poll_shutdown,
            Dispatcher.poll_shutdown_in_process, hF]
        rw [hstep]
        refine ⟨?_, ?_, ?_, ?_⟩
        · simp only [List.countP_cons]
          rw [List.countP_eq_zero.mpr]
          · simp
          · intro o ho
            simp [(hd.2 o ho).1]
        · simp only [List.countP_cons]
          rw [List.countP_eq_zero.mpr]
          · simp [hd.1]
          · intro o ho
            simp [(hd.2 o ho).2.2.1]
        · intro k j hjk _
          match k, hjk with
          | Nat.succ k, _ =>
            show ((Dispatcher.run_shutdown ShutdownSt.Done rest).2.getD k
              ShutdownObs.empty).fut_polled = false
            by_cases hk : k < (Dispatcher.run_shutdown ShutdownSt.Done rest).2.length
            · rw [List.getD_eq_getElem _ _ hk]
              exact (hd.2 _ (List.getElem_mem hk)).2.1
            · rw [List.getD_eq_default _ _ (Nat.le_of_not_lt hk)]
              rfl
        · intro k _
          exact ⟨0, Nat.zero_le k, rfl⟩
      · -- still pending: the cell stays InProcess, nothing else is polled
        have hstep : Dispatcher.run_shutdown ShutdownSt.InProcess (i :: rest) =
            ((Dispatcher.run_shutdown ShutdownSt.InProcess rest).1,
              { called_terminated := false, fut_polled := true, fut_completed := false,
                services_polled := false, result_ready := false } ::
                (Dispatcher.run_shutdown ShutdownSt.InProcess rest).2) := by
          simp [Dispatcher.run_shutdown, Dispatcher.poll_shutdown,
            Dispatcher.poll_shutdown_in_process, hF]
        rw [hstep]
        refine ⟨?_, ?_, ?_, ?_⟩
        · simp only [List.countP_cons]
          simp [ih.1]
        · simp only [List.countP_cons]
          simp [ih.2.1]
        · intro k j hjk hj
          match j, k, hjk with
          | 0, k, _ => simp at hj
          | Nat.succ j, Nat.succ k, hjk =>
            exact ih.2.2.1 k j (Nat.lt_of_succ_lt_succ hjk) hj
        · intro k hk
          match k with
          | 0 => simp at hk
          | Nat.succ k =>
            obtain ⟨j, hj, hc⟩ := ih.2.2.2 k hk
            exact ⟨Nat.succ j, Nat.succ_le_succ hj, hc⟩

/-- C6: dispatcher shutdown is idempotent — over any nonempty sequence of
`poll_shutdown` invocations from the initial `NotSet` state, the control
service receives the `Terminated` message exactly once (on the first
invocation, the only one that sees `NotSet`), the resulting control future is
completed at most once (exactly once when the run ends `Done`) and is never
polled again afterwards, and the Publish and Control services' own shutdowns
are polled only at or after the invocation that completed that future. -/
theorem C6_shutdown_idempotent (i : ShutdownIn) (ins : List ShutdownIn) :
    (Dispatcher.run_shutdown ShutdownSt.NotSet (i :: ins)).2.countP
        (fun o => o.called_terminated) = 1 ∧
    ((Dispatcher.run_shutdown ShutdownSt.NotSet (i :: ins)).2.getD 0
      ShutdownObs.empty).called_terminated = true ∧
    (Dispatcher.run_shutdown ShutdownSt.NotSet (i :: ins)).2.countP
        (fun o => o.fut_completed) =
      (if (Dispatcher.run_shutdown ShutdownSt.NotSet (i :: ins)).1 = ShutdownSt.Done
        then 1 else 0) ∧
    (∀ k j : Nat, j < k →
      ((Dispatcher.run_shutdown ShutdownSt.NotSet (i :: ins)).2.getD j
        ShutdownObs.empty).fut_completed = true →
      ((Dispatcher.run_shutdown ShutdownSt.NotSet (i :: ins)).2.getD k
        ShutdownObs.empty).fut_polled = false) ∧
    (∀ k : Nat,
      ((Dispatcher.run_shutdown ShutdownSt.NotSet (i :: ins)).2.getD k
        ShutdownObs.empty).services_polled = true →
      ∃ j, j ≤ k ∧
        ((Dispatcher.run_shutdown ShutdownSt.NotSet (i :: ins)).2.getD j
          ShutdownObs.empty).fut_completed = true) := by
  by_cases hF : i.fut_ready
  · have hd := run_shutdown_from_done ins
    have hstep : Dispatcher.run_shutdown ShutdownSt.NotSet (i :: ins) =
        ((Dispatcher.run_shutdown ShutdownSt.Done ins).1,
          { called_terminated := true, fut_polled := true, fut_completed := true,
            services_polled := true, result_ready := i.pub_ready && i.ctl_ready } ::
            (Dispatcher.run_shutdown ShutdownSt.Done ins).2) := by
      simp [Dispatcher.run_shutdown, Dispatcher.poll_shutdown,
        Dispatcher.poll_shutdown_in_process, hF]
    rw [hstep]
    refine ⟨?_, rfl, ?_, ?_, ?_⟩
    · simp only [List.countP_cons]
      rw [List.countP_eq_zero.mpr]
      · simp
      · intro o ho
        simp [(hd.2 o ho).1]
    · simp only [List.countP_cons]
      rw [List.countP_eq_zero.mpr]
      · simp [hd.1]
      · intro o ho
        simp [(hd.2 o ho).2.2.1]
    · intro k j hjk _
      match k, hjk with
      | Nat.succ k, _ =>
        show ((Dispatcher.run_shutdown ShutdownSt.Done ins).2.getD k
          ShutdownObs.empty).fut_polled = false
        by_cases hk : k < (Dispatcher.run_shutdown ShutdownSt.Done ins).2.length
        · rw [List.getD_eq_getElem _ _ hk]
          exact (hd.2 _ (List.getElem_mem hk)).2.1
        · rw [List.getD_eq_default _ _ (Nat.le_of_not_lt hk)]
          rfl
    · intro k _
      exact ⟨0, Nat.zero_le k, rfl⟩
  · have ih := run_shutdown_from_in_process ins
    have hstep : Dispatcher.run_shutdown ShutdownSt.NotSet (i :: ins) =
        ((Dispatcher.run_shutdown ShutdownSt.InProcess ins).1,
          { called_terminated := true, fut_polled := true, fut_completed := false,
            services_polled := false, result_ready := false } ::
            (Dispatcher.run_shutdown ShutdownSt.InProcess ins).2) := by
      simp [Dispatcher.run_shutdown, Dispatcher.poll_shutdown,
        Dispatcher.poll_shutdown_in_process, hF]
    rw [hstep]
    refine ⟨?_, rfl, ?_, ?_, ?_⟩
    · simp only [List.countP_cons]
      simp [ih.1]
    · simp only [List.countP_cons]
      simp [ih.2.1]
    · intro k j hjk hj
      match j, k, hjk with
      | 0, k, _ => simp at hj
      | Nat.succ j, Nat.succ k, hjk =>
        exact ih.2.2.1 k j (Nat.lt_of_succ_lt_succ hjk) hj
    · intro k hk
      match k with
      | 0 => simp at hk
      | Nat.succ k =>
        obtain ⟨j, hj, hc⟩ := ih.2.2.2 k hk
        exact ⟨Nat.succ j, Nat.succ_le_succ hj, hc⟩

/-- C6 witness: a single shutdown poll whose control future and services are
all immediately ready calls `Terminated` exactly once and completes the
future exactly once, ending `Done`. -/
theorem C6_shutdown_idempotent_witness :
    (Dispatcher.run_shutdown ShutdownSt.NotSet
        [{ fut_ready := true, pub_ready := true, ctl_ready := true }]).2.countP
      (fun o => o.called_terminated) = 1 ∧
    (Dispatcher.run_shutdown ShutdownSt.NotSet
        [{ fut_ready := true, pub_ready := true, ctl_ready := true }]).2.countP
      (fun o => o.fut_completed) =
      (if (Dispatcher.run_shutdown ShutdownSt.NotSet
            [{ fut_ready := true, pub_ready := true, ctl_ready := true }]).1 =
          ShutdownSt.Done then 1 else 0) :=
  ⟨(C6_shutdown_idempotent { fut_ready := true, pub_ready := true, ctl_ready := true } []).1,
    (C6_shutdown_idempotent { fut_ready := true, pub_ready := true, ctl_ready := true } []).2.2.1⟩

/-- C8 witness: a concrete publish failure on stream 4 becomes the
corresponding `app_error` control call. -/
theorem C8_publish_error_witness :
    PublishResponse.poll_publish 4 (Poll.Ready (Except.error "boom")) =
      PubPoll.Control (ControlMessage.app_error "boom" 4) :=
  (C8_publish_error_folds_to_app_error "boom" 4).1

/-- C10 witness: the USER-payload PING ACK round-trips through encode and
load. -/
theorem C10_ping_round_trip_witness :
    Ping.load (Ping.encode (Ping.pong USER_PAYLOAD)).1
        (Ping.encode (Ping.pong USER_PAYLOAD)).2 =
      Except.ok (Ping.pong USER_PAYLOAD) :=
  (C10_ping_encode_load_round_trip (Ping.pong USER_PAYLOAD) (by decide)).2.2

end NtexH2
